import Mathlib

/-!
# integreatly-operator: `cmd/manager/main.go`

A shallow embedding of the operator entry point `main` and of the collaborators
it calls.  `main` is a straight-line program with early exits; every effect it
has is a call into another package (operator-sdk, controller-runtime, the
`providers` package, logging).  The embedding keeps the order of those calls,
the arguments they receive and the way `main` reacts to what they return.

* The outside world is an explicit state `σ`; every collaborator is a function
  `σ → result × σ`, so a provider may answer differently after an earlier call.
* Everything observable that `main` does is appended to a trace of `Event`s.
* `os.Exit` and `panic` stop the program; the trace built so far is kept.

The model starts after `pflag.Parse()` returned: `products` is the parsed value
of the `--products` flag.
-/

namespace IntegreatlyOperator

/-! ## Data model -/

/-- A non-nil Go `error`; `text` is what `err.Error()` returns. A possibly nil
`error` is an `Option GoError`. -/
structure GoError where
  text : String
deriving DecidableEq

/-- The context built on line 82, `ctx := context.TODO()`. -/
inductive Context where
  | todo
deriving DecidableEq

/-- Modelled from the spec: the cache engine enumeration of package `providers`
(spec §3, "engine (enum: e.g. Redis)"); `main` names `CloudCacheEngineRedis`. -/
inductive CloudCacheEngine where
  | redis
deriving DecidableEq

/-- Modelled from the spec: the cache tier enumeration of package `providers`
(spec §3, "tier (enum: Dev | Prod)"); `main` names `CloudCacheTypeDev`. -/
inductive CloudCacheType where
  | dev
  | prod
deriving DecidableEq

/-- Modelled from the spec: the database engine enumeration of package
`providers` (spec §3, "engine (enum: e.g. Postgres)"); `main` names
`CloudDbEnginePostgres`. -/
inductive CloudDbEngine where
  | postgres
deriving DecidableEq

/-- Modelled from the spec: the database tier enumeration of package `providers`
(spec §3, "tier (Dev | Prod)"); `main` names `CloudDBTypeDev`. -/
inductive CloudDBType where
  | dev
  | prod
deriving DecidableEq

/-- The struct `providers.CloudCache`, with the fields the literal on lines
141-146 sets (`Type_` is the Go field `Type`). -/
structure CloudCache where
  ClusterName : String
  Engine : CloudCacheEngine
  EngineVersion : String
  Type_ : CloudCacheType
deriving DecidableEq

/-- The struct `providers.CloudDB`, with the fields the literal on lines 155-162
sets (`Type_` is the Go field `Type`). The two numeric fields are Go integers. -/
structure CloudDB where
  ClusterName : String
  Type_ : CloudDBType
  EngineVersion : String
  DBName : String
  Engine : CloudDbEngine
  RetentionPeriod : Int
  StorageSize : Int
deriving DecidableEq

/-! ## Observable events -/

/-- A call that leaves `main`, with the arguments `main` passes. `C` is the type
of the coordinates a provider returns. -/
inductive Call (C : Type) where
  | GetWatchNamespace
  | GetConfig
  | Become (ctx : Context) (lockName : String)
  | New (ns : String) (metricsBindAddress : String)
  | AddToScheme
  | AddToManager (products : List String)
  | ExposeMetricsPort (ctx : Context) (port : Int)
  | Get (vendorKey : String)
  | CreateCloudStorage (bucket : String)
  | ListCloudStorage
  | RemoveCloudStorage (bucket : String)
  | CreateCloudCache (cache : CloudCache)
  | RemoveCloudCache (cache : CloudCache)
  | CreateCloudDB (db : CloudDB)
  | RemoveCloudDB (db : CloudDB)
  | CoordsString (receiver : Option C)
  | SetupSignalHandler
  | Start
deriving DecidableEq

/-- What a call handed back: the coordinates (only the two provider `Create`
operations for cache and database return any) and the error. -/
structure Reply (C : Type) where
  coords : Option C
  err : Option GoError
deriving DecidableEq

/-- One operand of a variadic `logrus` call. -/
inductive LogArg where
  | str (s : String)
  | err (e : GoError)
deriving DecidableEq

/-- The observable steps of `main`. `σ` is the type of the world outside the
process, `C` the type of coordinates. -/
inductive Event (σ C : Type) where
  /-- Go `log.Info(msg)` on the controller-runtime logger `cmd`. -/
  | logInfo (msg : String)
  /-- Go `log.Error(err, msg)` on the controller-runtime logger `cmd`. -/
  | logError (err : GoError) (msg : String)
  /-- Go `logrus.Info(args...)`. -/
  | logrusInfo (args : List LogArg)
  /-- Go `logrus.Error(args...)`. -/
  | logrusError (args : List LogArg)
  /-- Go `fmt.Println(line)`. -/
  | println (line : String)
  /-- A call into a collaborator, made when the world was `before`, that
  returned `reply`. -/
  | call (c : Call C) (before : σ) (reply : Reply C)
deriving DecidableEq

/-! ## Collaborators -/

/-- The provider handle `providerFactory.Get` returns, with the seven
operations `main` invokes on it and the rendering of coordinates. The
signatures are read off the call sites of lines 129-170: storage operations
return an error, the two `Create` operations for cache and database return
coordinates and an error, the `Remove` operations return an error. -/
structure Provider (σ C : Type) where
  CreateCloudStorage : String → σ → Option GoError × σ
  ListCloudStorage : σ → Option GoError × σ
  RemoveCloudStorage : String → σ → Option GoError × σ
  CreateCloudCache : CloudCache → σ → (Option C × Option GoError) × σ
  RemoveCloudCache : CloudCache → σ → Option GoError × σ
  CreateCloudDB : CloudDB → σ → (Option C × Option GoError) × σ
  RemoveCloudDB : CloudDB → σ → Option GoError × σ
  /-- The method `String()` of non-nil coordinates. -/
  CoordsString : C → String

/-- Everything else `main` calls. Handles that `main` only passes on (`cfg`,
`mgr`, the scheme, the signal channel) live in the world state. `Get` returns
the provider when its error is nil and the error otherwise: `main` never looks
at the provider returned next to a non-nil error. -/
structure Env (σ C : Type) where
  /-- Go `runtime.Version()`. -/
  goVersion : String
  /-- Go `runtime.GOOS`. -/
  GOOS : String
  /-- Go `runtime.GOARCH`. -/
  GOARCH : String
  /-- Go `sdkVersion.Version`. -/
  sdkVersion : String
  /-- Go `k8sutil.GetWatchNamespace()`. -/
  GetWatchNamespace : σ → (String × Option GoError) × σ
  /-- Go `config.GetConfig()`. -/
  GetConfig : σ → Option GoError × σ
  /-- Go `leader.Become(ctx, lockName)`. -/
  Become : Context → String → σ → Option GoError × σ
  /-- Go `manager.New(cfg, manager.Options{Namespace, MetricsBindAddress})`. -/
  New : String → String → σ → Option GoError × σ
  /-- Go `apis.AddToScheme(mgr.GetScheme())`. -/
  AddToScheme : σ → Option GoError × σ
  /-- Go `controller.AddToManager(mgr, products)`. -/
  AddToManager : List String → σ → Option GoError × σ
  /-- Go `metrics.ExposeMetricsPort(ctx, port)`. -/
  ExposeMetricsPort : Context → Int → σ → Option GoError × σ
  /-- Go `providers.CloudProviderFactory{}.Get(vendorKey)`. -/
  Get : String → σ → Except GoError (Provider σ C) × σ
  /-- Go `signals.SetupSignalHandler()`. -/
  SetupSignalHandler : σ → σ
  /-- Go `mgr.Start(stopCh)`. -/
  Start : σ → Option GoError × σ

/-! ## Programs -/

/-- How a program stops early. -/
inductive Stop where
  /-- Go `os.Exit(status)`. -/
  | exit (status : Int)
  /-- Go `panic(message)`. -/
  | panic (message : String)
deriving DecidableEq

/-- The result of running a program: how it ended (`.ok` when it ran to its
end), the world it left, and the events it produced, oldest first. -/
structure Result (σ C α : Type) where
  outcome : Except Stop α
  world : σ
  trace : List (Event σ C)

/-- A program over the world `σ`. -/
def Prog (σ C α : Type) : Type := σ → Result σ C α

/-- Return a value without any effect. -/
def Prog.pure {σ C α : Type} (a : α) : Prog σ C α :=
  fun s => ⟨.ok a, s, []⟩

/-- Sequencing: run `m`; if it stopped, stop; otherwise continue with `k` and
put the events of `k` after those of `m`. -/
def Prog.bind {σ C α β : Type} (m : Prog σ C α) (k : α → Prog σ C β) : Prog σ C β :=
  fun s =>
    match m s with
    | ⟨.ok a, s1, t1⟩ =>
      match k a s1 with
      | ⟨o, s2, t2⟩ => ⟨o, s2, t1 ++ t2⟩
    | ⟨.error stop, s1, t1⟩ => ⟨.error stop, s1, t1⟩

instance {σ C : Type} : Monad (Prog σ C) where
  pure := Prog.pure
  bind := Prog.bind

/-- Record one event. -/
def emit {σ C : Type} (e : Event σ C) : Prog σ C Unit :=
  fun s => ⟨.ok (), s, [e]⟩

/-- Perform the call `c`, implemented by `f`, and record it together with the
world it was made in and what it returned. -/
def invoke {σ C α : Type} (c : Call C) (f : σ → α × σ) (reply : α → Reply C) : Prog σ C α :=
  fun s => ⟨.ok (f s).1, (f s).2, [Event.call c s (reply (f s).1)]⟩

/-- Go `os.Exit(status)`. -/
def osExit {σ C α : Type} (status : Int) : Prog σ C α :=
  fun s => ⟨.error (.exit status), s, []⟩

/-- Go `panic(message)`. -/
def goPanic {σ C α : Type} (message : String) : Prog σ C α :=
  fun s => ⟨.error (.panic message), s, []⟩

/-- Go `if v != nil { body }` for a value `v` that may be nil. -/
def ifNonNil {σ C α : Type} (v : Option α) (body : α → Prog σ C Unit) : Prog σ C Unit :=
  match v with
  | some a => body a
  | none => pure ()

/-- A reply that is only an error. -/
def errOnly {C : Type} (e : Option GoError) : Reply C := ⟨none, e⟩

/-- A reply that is coordinates and an error. -/
def coordsAndErr {C : Type} (r : Option C × Option GoError) : Reply C := ⟨r.1, r.2⟩

/-- The error part of what `Get` returned. -/
def getErr {σ C : Type} (r : Except GoError (Provider σ C)) : Option GoError :=
  match r with
  | .ok _ => none
  | .error e => some e

/-! ## Package-level variables (lines 31-35) -/

/-- Line 32, `metricsHost = "0.0.0.0"`. -/
def metricsHost : String := "0.0.0.0"

/-- Line 33, `metricsPort int32 = 8383`. -/
def metricsPort : Int := 8383

/-! ## The program -/

/-- Lines 38-42. -/
def printVersion {σ C : Type} (env : Env σ C) : Prog σ C Unit := do
  emit (.logInfo ("Go Version: " ++ env.goVersion))
  emit (.logInfo ("Go OS/Arch: " ++ env.GOOS ++ "/" ++ env.GOARCH))
  emit (.logInfo ("Version of operator-sdk: " ++ env.sdkVersion))

/-- Line 128, `var bucket = "test-operator-bucket"`. -/
def bucket : String := "test-operator-bucket"

/-- Lines 141-146. -/
def cloudCache : CloudCache :=
  { ClusterName := "mycluster"
    Engine := CloudCacheEngine.redis
    EngineVersion := "3.2.4"
    Type_ := CloudCacheType.dev }

/-- Lines 155-162. -/
def cloudDB : CloudDB :=
  { ClusterName := "mycluster"
    Type_ := CloudDBType.dev
    EngineVersion := "9.6"
    DBName := "mydb"
    Engine := CloudDbEngine.postgres
    RetentionPeriod := 7
    StorageSize := 50 }

/-- Lines 67-180 of `main`; the comments give the lines of each step. -/
def main {σ C : Type} (env : Env σ C) (products : List String) : Prog σ C Unit := do
  -- 67
  printVersion env
  -- 69-73
  let (ns, err) ← invoke .GetWatchNamespace env.GetWatchNamespace (fun r => errOnly r.2)
  ifNonNil err fun e => do
    emit (.logError e "Failed to get watch namespace")
    osExit 1
  -- 76-80
  let err ← invoke .GetConfig env.GetConfig errOnly
  ifNonNil err fun e => do
    emit (.logError e "")
    osExit 1
  -- 82
  let ctx := Context.todo
  -- 85-89
  let err ← invoke (.Become ctx "integreatly-operator-lock")
    (env.Become ctx "integreatly-operator-lock") errOnly
  ifNonNil err fun e => do
    emit (.logError e "")
    osExit 1
  -- 92-99
  let err ← invoke (.New ns (metricsHost ++ ":" ++ toString metricsPort))
    (env.New ns (metricsHost ++ ":" ++ toString metricsPort)) errOnly
  ifNonNil err fun e => do
    emit (.logError e "")
    osExit 1
  -- 101
  emit (.logInfo "Registering Components.")
  -- 104-107
  let err ← invoke .AddToScheme env.AddToScheme errOnly
  ifNonNil err fun e => do
    emit (.logError e "")
    osExit 1
  -- 110-113
  let err ← invoke (.AddToManager products) (env.AddToManager products) errOnly
  ifNonNil err fun e => do
    emit (.logError e "")
    osExit 1
  -- 116-119
  let err ← invoke (.ExposeMetricsPort ctx metricsPort)
    (env.ExposeMetricsPort ctx metricsPort) errOnly
  ifNonNil err fun e =>
    emit (.logInfo e.text)
  -- 121
  emit (.logInfo "Starting the Cmd.")
  -- 123-127
  let got ← invoke (.Get "aws") (env.Get "aws") (fun r => errOnly (getErr r))
  let provider ← (match got with
    | .ok p => pure p
    | .error e => goPanic ("unable to get cloud provider " ++ e.text))
  -- 129-131
  let err ← invoke (.CreateCloudStorage bucket) (provider.CreateCloudStorage bucket) errOnly
  ifNonNil err fun e =>
    emit (.logrusError [.str "aws error: ", .err e])
  -- 132
  emit (.logrusInfo [.str "created bucket "])
  -- 133-135
  let err ← invoke .ListCloudStorage provider.ListCloudStorage errOnly
  ifNonNil err fun e =>
    emit (.logrusError [.str "aws error list: ", .err e])
  -- 136
  emit (.logrusInfo [.str "listed bucket "])
  -- 137-139
  let err ← invoke (.RemoveCloudStorage bucket) (provider.RemoveCloudStorage bucket) errOnly
  ifNonNil err fun e =>
    emit (.logrusError [.str "aws error: ", .err e])
  -- 140
  emit (.logrusInfo [.str "deleted bucket "])
  -- 147-150
  emit (.println "creating elastic cache")
  let (_, err) ← invoke (.CreateCloudCache cloudCache) (provider.CreateCloudCache cloudCache)
    coordsAndErr
  ifNonNil err fun e =>
    emit (.logrusError [.str "aws error create elasticache : ", .err e])
  -- 151-154
  emit (.println "removing elastic cache")
  let err ← invoke (.RemoveCloudCache cloudCache) (provider.RemoveCloudCache cloudCache) errOnly
  ifNonNil err fun e =>
    emit (.logrusError [.str "aws error create elasticache : ", .err e])
  -- 163-166
  let (coords, err) ← invoke (.CreateCloudDB cloudDB) (provider.CreateCloudDB cloudDB)
    coordsAndErr
  ifNonNil err fun e =>
    emit (.logrusError [.str "aws error create rds : ", .err e])
  -- 167-169
  ifNonNil coords fun c => do
    let rendered ← invoke (.CoordsString (some c)) (fun s => (provider.CoordsString c, s))
      (fun _ => errOnly none)
    emit (.println ("created rds instance " ++ rendered))
  -- 170-172
  let err ← invoke (.RemoveCloudDB cloudDB) (provider.RemoveCloudDB cloudDB) errOnly
  ifNonNil err fun e =>
    emit (.logrusError [.str "aws error delete rds : ", .err e])
  -- 177-180
  invoke .SetupSignalHandler (fun s => ((), env.SetupSignalHandler s)) (fun _ => errOnly none)
  let err ← invoke .Start env.Start errOnly
  ifNonNil err fun e => do
    emit (.logError e "Manager exited non-zero")
    osExit 1

/-! ## Concrete environments

The world of these environments is a counter of the calls made so far. -/

/-- A provider whose operations all succeed; coordinates are strings. -/
def quietProvider : Provider Nat String :=
  { CreateCloudStorage := fun _ s => (none, s + 1)
    ListCloudStorage := fun s => (none, s + 1)
    RemoveCloudStorage := fun _ s => (none, s + 1)
    CreateCloudCache := fun c s => ((some c.ClusterName, none), s + 1)
    RemoveCloudCache := fun _ s => (none, s + 1)
    CreateCloudDB := fun d s => ((some d.DBName, none), s + 1)
    RemoveCloudDB := fun _ s => (none, s + 1)
    CoordsString := fun c => c }

/-- A provider whose operations all fail; it returns no coordinates. -/
def stormyProvider : Provider Nat String :=
  { CreateCloudStorage := fun _ s => (some ⟨"create bucket failed"⟩, s + 1)
    ListCloudStorage := fun s => (some ⟨"list buckets failed"⟩, s + 1)
    RemoveCloudStorage := fun _ s => (some ⟨"remove bucket failed"⟩, s + 1)
    CreateCloudCache := fun _ s => ((none, some ⟨"create cache failed"⟩), s + 1)
    RemoveCloudCache := fun _ s => (some ⟨"remove cache failed"⟩, s + 1)
    CreateCloudDB := fun _ s => ((none, some ⟨"create db failed"⟩), s + 1)
    RemoveCloudDB := fun _ s => (some ⟨"remove db failed"⟩, s + 1)
    CoordsString := fun c => c }

/-- An environment in which every bootstrap step succeeds, `Get` returns
`quietProvider` and `Start` returns nil. -/
def quietEnv : Env Nat String :=
  { goVersion := "go1.12"
    GOOS := "linux"
    GOARCH := "amd64"
    sdkVersion := "v0.8.0"
    GetWatchNamespace := fun s => (("integreatly", none), s + 1)
    GetConfig := fun s => (none, s + 1)
    Become := fun _ _ s => (none, s + 1)
    New := fun _ _ s => (none, s + 1)
    AddToScheme := fun s => (none, s + 1)
    AddToManager := fun _ s => (none, s + 1)
    ExposeMetricsPort := fun _ _ s => (none, s + 1)
    Get := fun _ s => (.ok quietProvider, s + 1)
    SetupSignalHandler := fun s => s + 1
    Start := fun s => (none, s + 1) }

/-- As `quietEnv`, but every provider operation fails, the metrics port cannot
be exposed, and `Start` returns an error. -/
def stormyEnv : Env Nat String :=
  { quietEnv with
    ExposeMetricsPort := fun _ _ s => (some ⟨"no metrics service"⟩, s + 1)
    Get := fun _ s => (.ok stormyProvider, s + 1)
    Start := fun s => (some ⟨"manager stopped"⟩, s + 1) }

/-- As `quietEnv`, but the factory knows no vendor. -/
def noVendorEnv : Env Nat String :=
  { quietEnv with Get := fun _ s => (.error ⟨"unsupported vendor"⟩, s + 1) }

/-! ## Observations on traces -/

/-- The calls of a trace, in order. -/
def calls {σ C : Type} (tr : List (Event σ C)) : List (Call C) :=
  tr.filterMap fun ev =>
    match ev with
    | .call c _ _ => some c
    | _ => none

/-- The seven provider operations. -/
def Call.isProviderOp {C : Type} : Call C → Bool
  | .CreateCloudStorage _ => true
  | .ListCloudStorage => true
  | .RemoveCloudStorage _ => true
  | .CreateCloudCache _ => true
  | .RemoveCloudCache _ => true
  | .CreateCloudDB _ => true
  | .RemoveCloudDB _ => true
  | _ => false

/-- The six provider operations that create or remove a cloud resource. -/
def Call.isProvisioning {C : Type} : Call C → Bool
  | .CreateCloudStorage _ => true
  | .RemoveCloudStorage _ => true
  | .CreateCloudCache _ => true
  | .RemoveCloudCache _ => true
  | .CreateCloudDB _ => true
  | .RemoveCloudDB _ => true
  | _ => false

/-- The blocking operations: create and remove for cache and database. -/
def Call.isBlockingOp {C : Type} : Call C → Bool
  | .CreateCloudCache _ => true
  | .RemoveCloudCache _ => true
  | .CreateCloudDB _ => true
  | .RemoveCloudDB _ => true
  | _ => false

/-- The call `mgr.Start`. -/
def Call.isStart {C : Type} : Call C → Bool
  | .Start => true
  | _ => false

/-- The context argument of a call, when the call is passed one. -/
def Call.context {C : Type} : Call C → Option Context
  | .Become ctx _ => some ctx
  | .ExposeMetricsPort ctx _ => some ctx
  | _ => none

/-- The descriptor argument of a call on a cache or a database. -/
def Call.descriptor {C : Type} : Call C → Option (CloudCache ⊕ CloudDB)
  | .CreateCloudCache c => some (.inl c)
  | .RemoveCloudCache c => some (.inl c)
  | .CreateCloudDB d => some (.inr d)
  | .RemoveCloudDB d => some (.inr d)
  | _ => none

/-- The arguments of the call are those written in `main`, for the calls on a
cache or a database and for the two calls that are passed the context. -/
def Call.hasArgsOfMain {C : Type} : Call C → Bool
  | .CreateCloudCache d => d == cloudCache
  | .RemoveCloudCache d => d == cloudCache
  | .CreateCloudDB d => d == cloudDB
  | .RemoveCloudDB d => d == cloudDB
  | .Become _ lockName => lockName == "integreatly-operator-lock"
  | .ExposeMetricsPort _ port => port == 8383
  | _ => true

/-- Every call event of the trace satisfies `P`. -/
def allCalls {σ C : Type} (P : Call C → σ → Reply C → Bool) (tr : List (Event σ C)) : Bool :=
  tr.all fun ev =>
    match ev with
    | .call c w rp => P c w rp
    | _ => true

/-- Modelled from the spec: the `Coordinates` of spec §3, "host/endpoint, port,
and a reference to where credentials are stored"; package `providers` is
missing. -/
structure Coordinates where
  host : String
  port : Nat
  credentialsRef : String
deriving DecidableEq

/-- Modelled from the spec: the "stable string rendering for logging" of
`Coordinates` (spec §3); the method `String()` of package `providers` is
missing. -/
def Coordinates.render (c : Coordinates) : String :=
  c.host ++ ":" ++ toString c.port ++ " credentials=" ++ c.credentialsRef

/-- Modelled from the spec: the error taxonomy of spec §7; the error types of
package `providers` are missing. -/
inductive ProviderError where
  | unsupportedVendor (key : String)
  | validation (field : String)
  | conflict (name : String)
  | transient
  | fatal (reason : String)
  | provisioning (reason : String)
  | deleteFailed (reason : String)
  | timeout
  | cancelled
deriving DecidableEq

/-- Modelled from the spec: the Go `error` a `ProviderError` is returned as;
the kinds stay distinguishable (spec §7, propagation policy). -/
def ProviderError.toGoError : ProviderError → GoError
  | .unsupportedVendor key => ⟨"UnsupportedVendorError: " ++ key⟩
  | .validation field => ⟨"ValidationError: " ++ field⟩
  | .conflict name => ⟨"ConflictError: " ++ name⟩
  | .transient => ⟨"TransientError"⟩
  | .fatal reason => ⟨"FatalError: " ++ reason⟩
  | .provisioning reason => ⟨"ProvisioningError: " ++ reason⟩
  | .deleteFailed reason => ⟨"DeleteFailed: " ++ reason⟩
  | .timeout => ⟨"TimeoutError"⟩
  | .cancelled => ⟨"CancelledError"⟩

/-- Modelled from the spec: one answer of the vendor to a status query of the
poll loop (spec §4.3, steps 2 and 3): still in progress, a terminal success, a
terminal failure with the vendor's reason, a network or auth fault, or a
non-transient rejection. -/
inductive VendorAnswer where
  | inProgress
  | terminalSuccess
  | terminalFailure (reason : String)
  | transientFault
  | rejected (reason : String)
deriving DecidableEq

/-- Modelled from the spec: the `ProvisioningState` of spec §3 for a resource
the vendor has a record of. `Requested` is the state before the vendor accepted
the submit and `Deleted` is the absence of a record; a failed resource keeps
the vendor's reason. -/
inductive ProvisioningState where
  | provisioning
  | available
  | failed (reason : String)
  | deleting
  | deleteFailed (reason : String)
deriving DecidableEq

/-- Modelled from the spec: the record the vendor keeps of one resource: the
descriptor it was submitted with and its state. -/
structure Resource (D : Type) where
  descriptor : D
  state : ProvisioningState
deriving DecidableEq

/-- Modelled from the spec: the vendor's control plane, "the source of truth"
(spec §3, ownership): the records of the buckets, cache clusters and databases
of this account, in whatever state they are, the bucket names taken by other
owners, and the answers the vendor will give to the requests still to come. -/
structure Vendor where
  buckets : List (Resource String)
  foreignBuckets : List String
  caches : List (Resource CloudCache)
  databases : List (Resource CloudDB)
  answers : List VendorAnswer
deriving DecidableEq

/-- Modelled from the spec: the configuration a backend is constructed with
(spec §4.2, §4.3): the deadline as a number of status queries, the retry budget
for transient faults, the vendor limits `CreateDatabase` validates against, and
the endpoint coordinates point to. -/
structure BackendConfig where
  maxPolls : Nat
  maxRetries : Nat
  minStorageGB : Int
  maxStorageGB : Int
  maxRetentionDays : Int
  endpoint : String
  port : Nat

/-- Modelled from the spec: how a poll loop ends (spec §4.3 step 2): a terminal
success, a terminal failure with the vendor's reason, or an error returned
while the resource is not in a terminal state (`TimeoutError`,
`TransientError`, `FatalError`). -/
inductive PollResult where
  | succeeded
  | failed (reason : String)
  | gaveUp (err : ProviderError)
deriving DecidableEq

/-- Modelled from the spec: the poll loop of spec §4.3 step 2 and the transient
fault handling of step 3. `polls` status queries are left before the deadline
and `retries` transient faults may still be absorbed. -/
def poll : Nat → Nat → List VendorAnswer → PollResult × List VendorAnswer
  | 0, _, answers => (.gaveUp .timeout, answers)
  | _ + 1, _, [] => (.gaveUp .timeout, [])
  | polls + 1, retries, .inProgress :: answers => poll polls retries answers
  | _ + 1, _, .terminalSuccess :: answers => (.succeeded, answers)
  | _ + 1, _, .terminalFailure reason :: answers => (.failed reason, answers)
  | _ + 1, 0, .transientFault :: answers => (.gaveUp .transient, answers)
  | polls + 1, retries + 1, .transientFault :: answers => poll polls retries answers
  | _ + 1, _, .rejected reason :: answers => (.gaveUp (.fatal reason), answers)

/-- Modelled from the spec: the record of the resource called `name`, if the
vendor has one. -/
def findResource {D : Type} (key : D → String) (name : String) (rs : List (Resource D)) :
    Option (Resource D) :=
  rs.find? fun r => key r.descriptor == name

/-- Modelled from the spec: the records after the resource called `name` moved
to the state `st`. -/
def setState {D : Type} (key : D → String) (name : String) (st : ProvisioningState)
    (rs : List (Resource D)) : List (Resource D) :=
  rs.map fun r => if key r.descriptor == name then { r with state := st } else r

/-- Modelled from the spec: the records after the resource called `name`
reached `Deleted`. -/
def dropResource {D : Type} (key : D → String) (name : String) (rs : List (Resource D)) :
    List (Resource D) :=
  rs.filter fun r => key r.descriptor != name

/-- Modelled from the spec: the coordinates of a resource of this backend. -/
def BackendConfig.coordinates (cfg : BackendConfig) (name : String) : Coordinates :=
  ⟨name ++ "." ++ cfg.endpoint, cfg.port, "secret/" ++ name⟩

/-- Modelled from the spec: the poll loop of a create (spec §4.3 step 2) on a
resource the vendor holds in `Provisioning`: a terminal success makes it
`Available` and yields coordinates, a terminal failure makes it `Failed` and
yields a `ProvisioningError` with the vendor's reason, and on a timeout or any
other error the resource stays in flight on the vendor side. -/
def awaitCreate {D : Type} (cfg : BackendConfig) (key : D → String) (name : String)
    (rs : List (Resource D)) (answers : List VendorAnswer) :
    (Option Coordinates × Option GoError) × List (Resource D) × List VendorAnswer :=
  match poll cfg.maxPolls cfg.maxRetries answers with
  | (.succeeded, rest) =>
    ((some (cfg.coordinates name), none), setState key name .available rs, rest)
  | (.failed reason, rest) =>
    ((none, some (ProviderError.provisioning reason).toGoError),
      setState key name (.failed reason) rs, rest)
  | (.gaveUp err, rest) => ((none, some err.toGoError), rs, rest)

/-- Modelled from the spec: a create operation (spec §4.1, §4.3). A resource of
that name with another descriptor is a `ConflictError`. One with the same
descriptor is adopted: `Available` is an immediate success, `Provisioning` is
attached to without a new submit, `Failed` fails identically. Without a record
the create is submitted: a request the vendor rejects is a `FatalError` and
leaves nothing behind, an accepted one is recorded as `Provisioning` and
polled. The spec does not say what a create finds on a resource under
deletion; it is modelled as a rejection by the vendor. -/
def createResource {D : Type} [DecidableEq D] (cfg : BackendConfig) (key : D → String) (d : D)
    (rs : List (Resource D)) (answers : List VendorAnswer) :
    (Option Coordinates × Option GoError) × List (Resource D) × List VendorAnswer :=
  match findResource key (key d) rs with
  | some r =>
    if r.descriptor = d then
      match r.state with
      | .available => ((some (cfg.coordinates (key d)), none), rs, answers)
      | .provisioning => awaitCreate cfg key (key d) rs answers
      | .failed reason =>
        ((none, some (ProviderError.provisioning reason).toGoError), rs, answers)
      | .deleting =>
        ((none, some (ProviderError.fatal "resource is being deleted").toGoError), rs, answers)
      | .deleteFailed _ =>
        ((none, some (ProviderError.fatal "resource is being deleted").toGoError), rs, answers)
    else ((none, some (ProviderError.conflict (key d)).toGoError), rs, answers)
  | none =>
    match answers with
    | .rejected reason :: rest =>
      ((none, some (ProviderError.fatal reason).toGoError), rs, rest)
    | _ => awaitCreate cfg key (key d) (⟨d, .provisioning⟩ :: rs) answers

/-- Modelled from the spec: the poll loop of a delete (spec §4.3 step 2) on a
resource the vendor holds in `Deleting`: a terminal success removes the record
(`Deleted`), a terminal failure makes it `DeleteFailed`, and on a timeout or
any other error the resource is still being deleted on the vendor side. -/
def awaitDelete {D : Type} (cfg : BackendConfig) (key : D → String) (name : String)
    (rs : List (Resource D)) (answers : List VendorAnswer) :
    Option GoError × List (Resource D) × List VendorAnswer :=
  match poll cfg.maxPolls cfg.maxRetries answers with
  | (.succeeded, rest) => (none, dropResource key name rs, rest)
  | (.failed reason, rest) =>
    (some (ProviderError.deleteFailed reason).toGoError,
      setState key name (.deleteFailed reason) rs, rest)
  | (.gaveUp err, rest) => (some err.toGoError, rs, rest)

/-- Modelled from the spec: a remove operation (spec §4.1, §4.3). A resource
the vendor has no record of is "already absent": immediate success, nothing
changes. A resource in `Deleting` is attached to; any other is submitted for
deletion, where a request the vendor rejects is a `FatalError`, and then
polled. -/
def removeResource {D : Type} (cfg : BackendConfig) (key : D → String) (name : String)
    (rs : List (Resource D)) (answers : List VendorAnswer) :
    Option GoError × List (Resource D) × List VendorAnswer :=
  match findResource key name rs with
  | none => (none, rs, answers)
  | some r =>
    match r.state with
    | .deleting => awaitDelete cfg key name rs answers
    | _ =>
      match answers with
      | .rejected reason :: rest => (some (ProviderError.fatal reason).toGoError, rs, rest)
      | _ => awaitDelete cfg key name (setState key name .deleting rs) answers

/-- Modelled from the spec: the vendor has a record of a bucket of this account
with this name, in any state. -/
def Vendor.hasBucket (v : Vendor) (name : String) : Bool :=
  v.buckets.any fun r => r.descriptor == name

/-- Modelled from the spec: the vendor has a record of a cache cluster with
this name, in any state. -/
def Vendor.hasCache (v : Vendor) (clusterName : String) : Bool :=
  v.caches.any fun r => r.descriptor.ClusterName == clusterName

/-- Modelled from the spec: the vendor has a record of a database with this
cluster name, in any state. -/
def Vendor.hasDatabase (v : Vendor) (clusterName : String) : Bool :=
  v.databases.any fun r => r.descriptor.ClusterName == clusterName

/-- Modelled from the spec: `CreateStorage(name)` of spec §4.1: success without
modification when the bucket exists in this account, `ConflictError` when the
name is taken by another owner, and otherwise the create of spec §4.3. -/
def CreateStorage (cfg : BackendConfig) (name : String) (v : Vendor) : Option GoError × Vendor :=
  if v.foreignBuckets.contains name then
    (some (ProviderError.conflict name).toGoError, v)
  else
    match createResource cfg id name v.buckets v.answers with
    | (reply, buckets, answers) => (reply.2, { v with buckets := buckets, answers := answers })

/-- Modelled from the spec: `ListStorage()` of spec §4.1, which "returns error
only on transport/auth failure". -/
def ListStorage (v : Vendor) : Option GoError × Vendor :=
  match v.answers with
  | .transientFault :: rest => (some ProviderError.transient.toGoError, { v with answers := rest })
  | _ => (none, v)

/-- Modelled from the spec: `RemoveStorage(name)` of spec §4.1: "removing a
non-existent bucket is success, not an error"; otherwise the delete of spec
§4.3. -/
def RemoveStorage (cfg : BackendConfig) (name : String) (v : Vendor) : Option GoError × Vendor :=
  match removeResource cfg id name v.buckets v.answers with
  | (err, buckets, answers) => (err, { v with buckets := buckets, answers := answers })

/-- Modelled from the spec: `CreateCache(CacheDescriptor)` of spec §4.1: starts
or adopts provisioning and blocks until `Available` or `Failed`, by the create
of spec §4.3. Coordinates are absent when the call returns an error (spec
§3). -/
def CreateCache (cfg : BackendConfig) (d : CloudCache) (v : Vendor) :
    (Option Coordinates × Option GoError) × Vendor :=
  match createResource cfg CloudCache.ClusterName d v.caches v.answers with
  | (reply, caches, answers) => (reply, { v with caches := caches, answers := answers })

/-- Modelled from the spec: `RemoveCache(CacheDescriptor)` of spec §4.1:
"idempotent delete; blocks until `Deleted` or reports `DeleteFailed`", by the
delete of spec §4.3. -/
def RemoveCache (cfg : BackendConfig) (d : CloudCache) (v : Vendor) : Option GoError × Vendor :=
  match removeResource cfg CloudCache.ClusterName d.ClusterName v.caches v.answers with
  | (err, caches, answers) => (err, { v with caches := caches, answers := answers })

/-- Modelled from the spec: the validation of `CreateDatabase` (spec §4.1):
`storageSizeGB` and `retentionPeriodDays` against the vendor's limits. -/
def BackendConfig.validate (cfg : BackendConfig) (d : CloudDB) : Option ProviderError :=
  if d.StorageSize < cfg.minStorageGB ∨ cfg.maxStorageGB < d.StorageSize then
    some (.validation "storageSizeGB")
  else if d.RetentionPeriod < 0 ∨ cfg.maxRetentionDays < d.RetentionPeriod then
    some (.validation "retentionPeriodDays")
  else none

/-- Modelled from the spec: `CreateDatabase(DatabaseDescriptor)` of spec §4.1:
the contract of `CreateCache`, after a validation that fails fast with
`ValidationError` before anything is submitted. -/
def CreateDatabase (cfg : BackendConfig) (d : CloudDB) (v : Vendor) :
    (Option Coordinates × Option GoError) × Vendor :=
  match cfg.validate d with
  | some err => ((none, some err.toGoError), v)
  | none =>
    match createResource cfg CloudDB.ClusterName d v.databases v.answers with
    | (reply, databases, answers) =>
      (reply, { v with databases := databases, answers := answers })

/-- Modelled from the spec: `RemoveDatabase(DatabaseDescriptor)` of spec §4.1,
an idempotent delete with the contract of `RemoveCache`. -/
def RemoveDatabase (cfg : BackendConfig) (d : CloudDB) (v : Vendor) : Option GoError × Vendor :=
  match removeResource cfg CloudDB.ClusterName d.ClusterName v.databases v.answers with
  | (err, databases, answers) => (err, { v with databases := databases, answers := answers })

/-- Modelled from the spec: the vendor backend as the provider handle `main`
uses; the Go method names of lines 129-170 are bound to the operations of spec
§4.1. -/
def backend (cfg : BackendConfig) : Provider Vendor Coordinates :=
  { CreateCloudStorage := CreateStorage cfg
    ListCloudStorage := ListStorage
    RemoveCloudStorage := RemoveStorage cfg
    CreateCloudCache := CreateCache cfg
    RemoveCloudCache := RemoveCache cfg
    CreateCloudDB := CreateDatabase cfg
    RemoveCloudDB := RemoveDatabase cfg
    CoordsString := Coordinates.render }

/-- Modelled from the spec: `Get(vendorKey)` of the provider factory (spec
§4.2): the backend for the key `"aws"`, `UnsupportedVendorError` for any other
key; construction does not contact the cloud. -/
def factoryGet (cfg : BackendConfig) (vendorKey : String) (v : Vendor) :
    Except GoError (Provider Vendor Coordinates) × Vendor :=
  if vendorKey = "aws" then (.ok (backend cfg), v)
  else (.error (ProviderError.unsupportedVendor vendorKey).toGoError, v)

/-- A backend configuration for concrete runs. -/
def devConfig : BackendConfig :=
  { maxPolls := 4
    maxRetries := 1
    minStorageGB := 20
    maxStorageGB := 1000
    maxRetentionDays := 35
    endpoint := "eu-west-1.example"
    port := 6379 }

/-- A vendor account with no resources. The bucket of `main` is created and
removed; the vendor then rejects the next request, the create of the cache
cluster, for lack of quota; the two requests after that succeed. -/
def emptyAccount : Vendor :=
  { buckets := []
    foreignBuckets := []
    caches := []
    databases := []
    answers := [.terminalSuccess, .terminalSuccess, .rejected "quota exceeded",
      .terminalSuccess, .terminalSuccess] }

/-- The account `emptyAccount` after the vendor rejected the create of the
cache cluster: it has no record of a cluster. -/
def accountAfterRejection : Vendor :=
  { emptyAccount with answers := [.terminalSuccess, .terminalSuccess] }

/-- A vendor account with no resources that never reaches a terminal state:
every create of `main` times out and stays in flight. -/
def slowAccount : Vendor :=
  { buckets := []
    foreignBuckets := []
    caches := []
    databases := []
    answers := [] }

/-- An environment over the vendor's control plane: the bootstrap succeeds and
the factory is the one of spec §4.2. -/
def awsEnv (cfg : BackendConfig) : Env Vendor Coordinates :=
  { goVersion := "go1.12"
    GOOS := "linux"
    GOARCH := "amd64"
    sdkVersion := "v0.8.0"
    GetWatchNamespace := fun v => (("integreatly", none), v)
    GetConfig := fun v => (none, v)
    Become := fun _ _ v => (none, v)
    New := fun _ _ v => (none, v)
    AddToScheme := fun v => (none, v)
    AddToManager := fun _ v => (none, v)
    ExposeMetricsPort := fun _ _ v => (none, v)
    Get := factoryGet cfg
    SetupSignalHandler := fun v => v
    Start := fun v => (none, v) }

/-! ## The shape of a run

Definitions used to state, once and for all, what the trace of `main` looks
like on each of its paths (`main_run` below). -/

/-- Put the events `t` in front of the events of `r`. -/
def Result.after {σ C α : Type} (t : List (Event σ C)) (r : Result σ C α) : Result σ C α :=
  ⟨r.outcome, r.world, t ++ r.trace⟩

/-- The events of a statement guarded by `if v != nil`. -/
def whenSome {α β : Type} (v : Option α) (g : α → List β) : List β :=
  match v with
  | some a => g a
  | none => []

/-- The world in which each call of a run was made. -/
structure Worlds (σ : Type) where
  GetWatchNamespace : σ
  GetConfig : σ
  Become : σ
  New : σ
  AddToScheme : σ
  AddToManager : σ
  ExposeMetricsPort : σ
  Get : σ
  CreateCloudStorage : σ
  ListCloudStorage : σ
  RemoveCloudStorage : σ
  CreateCloudCache : σ
  RemoveCloudCache : σ
  CreateCloudDB : σ
  RemoveCloudDB : σ
  SetupSignalHandler : σ
  Start : σ

/-- What each provider operation of a run returned. -/
structure Replies (C : Type) where
  CreateCloudStorage : Option GoError
  ListCloudStorage : Option GoError
  RemoveCloudStorage : Option GoError
  CreateCloudCache : Option C × Option GoError
  RemoveCloudCache : Option GoError
  CreateCloudDB : Option C × Option GoError
  RemoveCloudDB : Option GoError

/-- The events of `printVersion`. -/
def versionTrace {σ C : Type} (env : Env σ C) : List (Event σ C) :=
  [.logInfo ("Go Version: " ++ env.goVersion),
   .logInfo ("Go OS/Arch: " ++ env.GOOS ++ "/" ++ env.GOARCH),
   .logInfo ("Version of operator-sdk: " ++ env.sdkVersion)]

/-- The events up to the return of `GetWatchNamespace` with error `e`. -/
def upToGetWatchNamespace {σ C : Type} (env : Env σ C) (W : Worlds σ) (e : Option GoError) :
    List (Event σ C) :=
  versionTrace env ++ [.call .GetWatchNamespace W.GetWatchNamespace (errOnly e)]

/-- The events up to the return of `GetConfig` with error `e`. -/
def upToGetConfig {σ C : Type} (env : Env σ C) (W : Worlds σ) (e : Option GoError) :
    List (Event σ C) :=
  upToGetWatchNamespace env W none ++ [.call .GetConfig W.GetConfig (errOnly e)]

/-- The events up to the return of `leader.Become` with error `e`. -/
def upToBecome {σ C : Type} (env : Env σ C) (W : Worlds σ) (e : Option GoError) :
    List (Event σ C) :=
  upToGetConfig env W none ++
    [.call (.Become .todo "integreatly-operator-lock") W.Become (errOnly e)]

/-- The events up to the return of `manager.New` with error `e`. -/
def upToNew {σ C : Type} (env : Env σ C) (ns : String) (W : Worlds σ) (e : Option GoError) :
    List (Event σ C) :=
  upToBecome env W none ++
    [.call (.New ns (metricsHost ++ ":" ++ toString metricsPort)) W.New (errOnly e)]

/-- The events up to the return of `apis.AddToScheme` with error `e`. -/
def upToAddToScheme {σ C : Type} (env : Env σ C) (ns : String) (W : Worlds σ)
    (e : Option GoError) : List (Event σ C) :=
  upToNew env ns W none ++
    [.logInfo "Registering Components.", .call .AddToScheme W.AddToScheme (errOnly e)]

/-- The events up to the return of `controller.AddToManager` with error `e`. -/
def upToAddToManager {σ C : Type} (env : Env σ C) (products : List String) (ns : String)
    (W : Worlds σ) (e : Option GoError) : List (Event σ C) :=
  upToAddToScheme env ns W none ++
    [.call (.AddToManager products) W.AddToManager (errOnly e)]

/-- The events up to the return of `providerFactory.Get` with error `eg`, when
`ExposeMetricsPort` returned `em`. -/
def upToGet {σ C : Type} (env : Env σ C) (products : List String) (ns : String) (W : Worlds σ)
    (em eg : Option GoError) : List (Event σ C) :=
  upToAddToManager env products ns W none ++
    [.call (.ExposeMetricsPort .todo metricsPort) W.ExposeMetricsPort (errOnly em)] ++
    whenSome em (fun e => [.logInfo e.text]) ++
    [.logInfo "Starting the Cmd.", .call (.Get "aws") W.Get (errOnly eg)]

/-- The events of lines 129-172 when the provider operations return `R`. -/
def provisionTrace {σ C : Type} (p : Provider σ C) (W : Worlds σ) (R : Replies C) :
    List (Event σ C) :=
  [.call (.CreateCloudStorage bucket) W.CreateCloudStorage (errOnly R.CreateCloudStorage)] ++
  whenSome R.CreateCloudStorage (fun e => [.logrusError [.str "aws error: ", .err e]]) ++
  [.logrusInfo [.str "created bucket "],
   .call .ListCloudStorage W.ListCloudStorage (errOnly R.ListCloudStorage)] ++
  whenSome R.ListCloudStorage (fun e => [.logrusError [.str "aws error list: ", .err e]]) ++
  [.logrusInfo [.str "listed bucket "],
   .call (.RemoveCloudStorage bucket) W.RemoveCloudStorage (errOnly R.RemoveCloudStorage)] ++
  whenSome R.RemoveCloudStorage (fun e => [.logrusError [.str "aws error: ", .err e]]) ++
  [.logrusInfo [.str "deleted bucket "],
   .println "creating elastic cache",
   .call (.CreateCloudCache cloudCache) W.CreateCloudCache (coordsAndErr R.CreateCloudCache)] ++
  whenSome R.CreateCloudCache.2
    (fun e => [.logrusError [.str "aws error create elasticache : ", .err e]]) ++
  [.println "removing elastic cache",
   .call (.RemoveCloudCache cloudCache) W.RemoveCloudCache (errOnly R.RemoveCloudCache)] ++
  whenSome R.RemoveCloudCache
    (fun e => [.logrusError [.str "aws error create elasticache : ", .err e]]) ++
  [.call (.CreateCloudDB cloudDB) W.CreateCloudDB (coordsAndErr R.CreateCloudDB)] ++
  whenSome R.CreateCloudDB.2 (fun e => [.logrusError [.str "aws error create rds : ", .err e]]) ++
  whenSome R.CreateCloudDB.1 (fun c =>
    [.call (.CoordsString (some c)) W.RemoveCloudDB (errOnly none),
     .println ("created rds instance " ++ p.CoordsString c)]) ++
  [.call (.RemoveCloudDB cloudDB) W.RemoveCloudDB (errOnly R.RemoveCloudDB)] ++
  whenSome R.RemoveCloudDB (fun e => [.logrusError [.str "aws error delete rds : ", .err e]])

/-- The events of lines 177-180 when `mgr.Start` returns `e`. -/
def startTrace {σ C : Type} (W : Worlds σ) (e : Option GoError) : List (Event σ C) :=
  [.call .SetupSignalHandler W.SetupSignalHandler (errOnly none),
   .call .Start W.Start (errOnly e)] ++
  whenSome e (fun e => [.logError e "Manager exited non-zero"])

/-- How `main` ends when `mgr.Start` returns `e`. -/
def startOutcome (e : Option GoError) : Except Stop Unit :=
  match e with
  | some _ => .error (.exit 1)
  | none => .ok ()

/-- The replies `R` and the worlds `W` are those the provider `p`, obtained
from `env`, gives when its operations are called in the order of `main`. -/
def Linked {σ C : Type} (env : Env σ C) (p : Provider σ C) (W : Worlds σ) (R : Replies C)
    (es : Option GoError) : Prop :=
  env.Get "aws" W.Get = (.ok p, W.CreateCloudStorage) ∧
  p.CreateCloudStorage bucket W.CreateCloudStorage =
    (R.CreateCloudStorage, W.ListCloudStorage) ∧
  p.ListCloudStorage W.ListCloudStorage = (R.ListCloudStorage, W.RemoveCloudStorage) ∧
  p.RemoveCloudStorage bucket W.RemoveCloudStorage =
    (R.RemoveCloudStorage, W.CreateCloudCache) ∧
  p.CreateCloudCache cloudCache W.CreateCloudCache = (R.CreateCloudCache, W.RemoveCloudCache) ∧
  p.RemoveCloudCache cloudCache W.RemoveCloudCache = (R.RemoveCloudCache, W.CreateCloudDB) ∧
  p.CreateCloudDB cloudDB W.CreateCloudDB = (R.CreateCloudDB, W.RemoveCloudDB) ∧
  p.RemoveCloudDB cloudDB W.RemoveCloudDB = (R.RemoveCloudDB, W.SetupSignalHandler) ∧
  env.SetupSignalHandler W.SetupSignalHandler = W.Start ∧
  (env.Start W.Start).1 = es

/-- The eight paths of `main`: an exit at one of the six bootstrap steps, the
panic after `Get`, or the full run through `mgr.Start`. -/
def MainRun {σ C : Type} (env : Env σ C) (products : List String) (out : Except Stop Unit)
    (tr : List (Event σ C)) : Prop :=
  (∃ W e, out = .error (.exit 1) ∧
    tr = upToGetWatchNamespace env W (some e) ++
      [.logError e "Failed to get watch namespace"]) ∨
  (∃ W e, out = .error (.exit 1) ∧ tr = upToGetConfig env W (some e) ++ [.logError e ""]) ∨
  (∃ W e, out = .error (.exit 1) ∧ tr = upToBecome env W (some e) ++ [.logError e ""]) ∨
  (∃ W ns e, out = .error (.exit 1) ∧ tr = upToNew env ns W (some e) ++ [.logError e ""]) ∨
  (∃ W ns e, out = .error (.exit 1) ∧
    tr = upToAddToScheme env ns W (some e) ++ [.logError e ""]) ∨
  (∃ W ns e, out = .error (.exit 1) ∧
    tr = upToAddToManager env products ns W (some e) ++ [.logError e ""]) ∨
  (∃ W ns em e, out = .error (.panic ("unable to get cloud provider " ++ e.text)) ∧
    tr = upToGet env products ns W em (some e)) ∨
  (∃ W ns em p R es, out = startOutcome es ∧
    tr = upToGet env products ns W em none ++ provisionTrace p W R ++ startTrace W es ∧
    Linked env p W R es)

/-! ## Running programs -/

section Running

variable {σ C α β γ : Type}

theorem bind_def (m : Prog σ C α) (k : α → Prog σ C β) : m >>= k = Prog.bind m k := rfl

theorem bind_assoc_prog (m : Prog σ C α) (k : α → Prog σ C β) (j : β → Prog σ C γ) :
    (m >>= k) >>= j = m >>= fun a => k a >>= j := by
  funext s
  simp only [bind_def, Prog.bind]
  rcases m s with ⟨_ | a, s1, t1⟩
  · rfl
  · simp only
    rcases k a s1 with ⟨_ | b, s2, t2⟩
    · rfl
    · simp only
      rcases j b s2 with ⟨o, s3, t3⟩
      simp

theorem after_trace (t : List (Event σ C)) (r : Result σ C α) :
    (Result.after t r).trace = t ++ r.trace := rfl

theorem after_outcome (t : List (Event σ C)) (r : Result σ C α) :
    (Result.after t r).outcome = r.outcome := rfl

theorem emit_bind (e : Event σ C) (k : Unit → Prog σ C β) (s : σ) :
    (emit e >>= k) s = Result.after [e] (k () s) := rfl

theorem invoke_bind (c : Call C) (f : σ → α × σ) (r : α → Reply C) (k : α → Prog σ C β)
    (s : σ) :
    (invoke c f r >>= k) s =
      Result.after [Event.call c s (r (f s).1)] (k (f s).1 (f s).2) := rfl

theorem ifNonNil_exit_bind (v : Option α) (g : α → Event σ C) (n : Int)
    (k : Unit → Prog σ C β) (s : σ) :
    (ifNonNil v (fun a => emit (g a) >>= fun _ => osExit n) >>= k) s =
      match v with
      | some a => ⟨.error (.exit n), s, [g a]⟩
      | none => k () s := by
  cases v
  · simp [ifNonNil, bind_def, Prog.bind, pure, Prog.pure]
  · rfl

theorem ifNonNil_exit (v : Option α) (g : α → Event σ C) (n : Int) (s : σ) :
    (ifNonNil v (fun a => emit (g a) >>= fun _ => (osExit n : Prog σ C Unit))) s =
      match v with
      | some a => ⟨.error (.exit n), s, [g a]⟩
      | none => ⟨.ok (), s, []⟩ := by
  cases v <;> rfl

theorem ifNonNil_emit_bind (v : Option α) (g : α → Event σ C)
    (k : Unit → Prog σ C β) (s : σ) :
    (ifNonNil v (fun a => emit (g a)) >>= k) s =
      Result.after (whenSome v fun a => [g a]) (k () s) := by
  cases v
  · simp [ifNonNil, bind_def, Prog.bind, pure, Prog.pure, whenSome, Result.after]
  · rfl

theorem ifNonNil_render_bind (v : Option α) (c : α → Call C) (h : α → γ) (r : γ → Reply C)
    (g : α → γ → Event σ C) (k : Unit → Prog σ C β) (s : σ) :
    (ifNonNil v (fun a => invoke (c a) (fun s => (h a, s)) r >>= fun x => emit (g a x)) >>= k) s =
      Result.after (whenSome v fun a => [Event.call (c a) s (r (h a)), g a (h a)]) (k () s) := by
  cases v
  · simp [ifNonNil, bind_def, Prog.bind, pure, Prog.pure, whenSome, Result.after]
  · rfl

theorem get_bind (got : Except GoError (Provider σ C)) (msg : GoError → String)
    (k : Provider σ C → Prog σ C β) (s : σ) :
    ((match got with
      | .ok p => pure p
      | .error e => goPanic (msg e)) >>= k) s =
    match got with
    | .ok p => k p s
    | .error e => ⟨.error (.panic (msg e)), s, []⟩ := by
  cases got
  · rfl
  · simp [bind_def, Prog.bind, pure, Prog.pure]

/-- Every run of `main` follows one of the eight paths of `MainRun`. -/
theorem main_run (env : Env σ C) (products : List String) (s : σ) :
    MainRun env products (main env products s).outcome (main env products s).trace := by
  simp only [main, printVersion, bind_assoc_prog, emit_bind, invoke_bind, ifNonNil_exit_bind,
    ifNonNil_emit_bind, get_bind, ifNonNil_exit, ifNonNil_render_bind]
  rcases h0 : env.GetWatchNamespace s with ⟨⟨ns, _ | e⟩, w1⟩
  swap
  · left
    exact ⟨⟨s, s, s, s, s, s, s, s, s, s, s, s, s, s, s, s, s⟩, e, rfl, rfl⟩
  right
  rcases h1 : env.GetConfig w1 with ⟨_ | e, w2⟩
  swap
  · left
    exact ⟨⟨s, w1, s, s, s, s, s, s, s, s, s, s, s, s, s, s, s⟩, e, rfl, rfl⟩
  right
  rcases h2 : env.Become Context.todo "integreatly-operator-lock" w2 with ⟨_ | e, w3⟩
  swap
  · left
    exact ⟨⟨s, w1, w2, s, s, s, s, s, s, s, s, s, s, s, s, s, s⟩, e, rfl, rfl⟩
  right
  rcases h3 : env.New ns (metricsHost ++ ":" ++ toString metricsPort) w3 with ⟨_ | e, w4⟩
  swap
  · left
    exact ⟨⟨s, w1, w2, w3, s, s, s, s, s, s, s, s, s, s, s, s, s⟩, ns, e, rfl, rfl⟩
  right
  rcases h4 : env.AddToScheme w4 with ⟨_ | e, w5⟩
  swap
  · left
    exact ⟨⟨s, w1, w2, w3, w4, s, s, s, s, s, s, s, s, s, s, s, s⟩, ns, e, rfl, rfl⟩
  right
  rcases h5 : env.AddToManager products w5 with ⟨_ | e, w6⟩
  swap
  · left
    exact ⟨⟨s, w1, w2, w3, w4, w5, s, s, s, s, s, s, s, s, s, s, s⟩, ns, e, rfl, rfl⟩
  right
  rcases h6 : env.ExposeMetricsPort Context.todo metricsPort w6 with ⟨em, w7⟩
  rcases h7 : env.Get "aws" w7 with ⟨e | p, w8⟩
  · left
    exact ⟨⟨s, w1, w2, w3, w4, w5, w6, w7, s, s, s, s, s, s, s, s, s⟩, ns, em, e, rfl, rfl⟩
  right
  simp only []
  rcases g1 : p.CreateCloudStorage bucket w8 with ⟨r1, w9⟩
  rcases g2 : p.ListCloudStorage w9 with ⟨r2, w10⟩
  rcases g3 : p.RemoveCloudStorage bucket w10 with ⟨r3, w11⟩
  rcases g4 : p.CreateCloudCache cloudCache w11 with ⟨r4, w12⟩
  rcases g5 : p.RemoveCloudCache cloudCache w12 with ⟨r5, w13⟩
  rcases g6 : p.CreateCloudDB cloudDB w13 with ⟨r6, w14⟩
  rcases g7 : p.RemoveCloudDB cloudDB w14 with ⟨r7, w15⟩
  rcases g8 : env.Start (env.SetupSignalHandler w15) with ⟨es, w17⟩
  refine ⟨⟨s, w1, w2, w3, w4, w5, w6, w7, w8, w9, w10, w11, w12, w13, w14, w15,
    env.SetupSignalHandler w15⟩, ns, em, p, ⟨r1, r2, r3, r4, r5, r6, r7⟩, es, ?_, ?_, ?_⟩
  · cases es <;> rfl
  · cases es <;>
      simp [after_trace, upToGet, upToAddToManager, upToAddToScheme, upToNew, upToBecome, upToGetConfig,
        upToGetWatchNamespace, versionTrace, provisionTrace, startTrace, getErr, whenSome]
  · simp [Linked, h7, g1, g2, g3, g4, g5, g6, g7, g8]

end Running

/-! ## Reading traces -/

section Traces

variable {σ C α β : Type}

theorem mem_whenSome (v : Option α) (g : α → List β) (x : β) :
    x ∈ whenSome v g ↔ ∃ a, v = some a ∧ x ∈ g a := by
  cases v <;> simp [whenSome]

theorem filter_whenSome (p : β → Bool) (v : Option α) (g : α → List β) :
    (whenSome v g).filter p = whenSome v fun a => (g a).filter p := by
  cases v <;> simp [whenSome]

theorem calls_whenSome (v : Option α) (g : α → List (Event σ C)) :
    calls (whenSome v g) = whenSome v fun a => calls (g a) := by
  cases v <;> simp [whenSome, calls]

theorem whenSome_nil (v : Option α) : whenSome v (fun _ => ([] : List β)) = [] := by
  cases v <;> rfl

theorem calls_append (a b : List (Event σ C)) : calls (a ++ b) = calls a ++ calls b := by
  simp [calls]

theorem calls_nil : calls ([] : List (Event σ C)) = [] := rfl

theorem calls_cons (ev : Event σ C) (t : List (Event σ C)) :
    calls (ev :: t) = (match ev with | .call c _ _ => [c] | _ => []) ++ calls t := by
  cases ev <;> simp [calls]

theorem mem_calls (c : Call C) (tr : List (Event σ C)) :
    c ∈ calls tr ↔ ∃ w rp, Event.call c w rp ∈ tr := by
  induction tr with
  | nil => simp [calls]
  | cons ev t ih =>
    rw [calls_cons, List.mem_append, ih]
    cases ev <;> simp
    rename_i c1 w1 rp1
    constructor
    · rintro (rfl | ⟨w, rp, h⟩)
      · exact ⟨w1, rp1, Or.inl ⟨rfl, rfl, rfl⟩⟩
      · exact ⟨w, rp, Or.inr h⟩
    · rintro ⟨w, rp, ⟨rfl, -, -⟩ | h⟩
      · exact Or.inl rfl
      · exact Or.inr ⟨w, rp, h⟩

theorem allCalls_nil (P : Call C → σ → Reply C → Bool) :
    allCalls P ([] : List (Event σ C)) = true := rfl

theorem allCalls_append (P : Call C → σ → Reply C → Bool) (a b : List (Event σ C)) :
    allCalls P (a ++ b) = (allCalls P a && allCalls P b) := by
  simp [allCalls]

theorem allCalls_cons (P : Call C → σ → Reply C → Bool) (ev : Event σ C)
    (t : List (Event σ C)) :
    allCalls P (ev :: t) =
      ((match ev with | .call c w rp => P c w rp | _ => true) && allCalls P t) := by
  simp [allCalls]

theorem allCalls_whenSome (P : Call C → σ → Reply C → Bool) (v : Option α)
    (g : α → List (Event σ C)) :
    allCalls P (whenSome v g) = v.all fun a => allCalls P (g a) := by
  cases v <;> rfl

theorem option_all_true (v : Option α) : (v.all fun _ => true) = true := by
  cases v <;> rfl

theorem of_allCalls (P : Call C → σ → Reply C → Bool) (tr : List (Event σ C))
    (h : allCalls P tr = true) : ∀ c w rp, Event.call c w rp ∈ tr → P c w rp = true := by
  intro c w rp hmem
  simp only [allCalls, List.all_eq_true] at h
  exact h _ hmem

theorem created_ne_creating (x : String) :
    "created rds instance " ++ x ≠ "creating elastic cache" := by
  intro h
  have := congrArg String.data h
  simp [String.data_append] at this

theorem created_ne_removing (x : String) :
    "created rds instance " ++ x ≠ "removing elastic cache" := by
  intro h
  have := congrArg String.data h
  simp [String.data_append] at this

theorem created_inj (x y : String) :
    "created rds instance " ++ x = "created rds instance " ++ y ↔ x = y := by
  constructor
  · intro h
    have := congrArg String.data h
    simp [String.data_append] at this
    exact String.ext this
  · rintro rfl
    rfl

end Traces

/-! ## The backend of the spec -/

theorem findResource_absent {D : Type} (key : D → String) (name : String)
    (rs : List (Resource D)) (h : (rs.any fun r => key r.descriptor == name) = false) :
    findResource key name rs = none := by
  rw [findResource, List.find?_eq_none]
  intro r hr
  have := (List.any_eq_false.1 h) r hr
  simpa using this

/-- A create that times out leaves the cluster in flight on the vendor side (spec
§4.3 (c)): the vendor has a record of it, a second create with the same
descriptor attaches to it and times out again, and a create with another tier
is a `ConflictError` (spec §8). -/
theorem createCache_timeout_in_flight :
    (CreateCache devConfig cloudCache slowAccount).1 = (none, some ⟨"TimeoutError"⟩) ∧
    (CreateCache devConfig cloudCache slowAccount).2.hasCache cloudCache.ClusterName = true ∧
    (CreateCache devConfig cloudCache (CreateCache devConfig cloudCache slowAccount).2) =
      ((none, some ⟨"TimeoutError"⟩), (CreateCache devConfig cloudCache slowAccount).2) ∧
    (CreateCache devConfig { cloudCache with Type_ := .prod }
        (CreateCache devConfig cloudCache slowAccount).2).1 =
      (none, some ⟨"ConflictError: mycluster"⟩) := by
  decide

theorem removeCache_absent (cfg : BackendConfig) (d : CloudCache) (v : Vendor)
    (h : v.hasCache d.ClusterName = false) : RemoveCache cfg d v = (none, v) := by
  simp only [RemoveCache, removeResource, findResource_absent _ _ _ h]

theorem removeDatabase_absent (cfg : BackendConfig) (d : CloudDB) (v : Vendor)
    (h : v.hasDatabase d.ClusterName = false) : RemoveDatabase cfg d v = (none, v) := by
  simp only [RemoveDatabase, removeResource, findResource_absent _ _ _ h]

theorem removeStorage_absent (cfg : BackendConfig) (name : String) (v : Vendor)
    (h : v.hasBucket name = false) : RemoveStorage cfg name v = (none, v) := by
  simp only [RemoveStorage, removeResource, findResource_absent id _ _ h]

/-! ## Claims -/

/-- C1, as stated, fails: in `quietEnv` the call `CreateCloudStorage` is made
before the call of `mgr.Start`. -/
theorem no_provisioning_before_start_counterexample :
    ¬ (∀ pre w rp post,
        (main quietEnv ["all"] 0).trace = pre ++ Event.call .Start w rp :: post →
        ∀ c ∈ calls pre, c.isProvisioning = false) := by
  intro h
  have := h ((main quietEnv ["all"] 0).trace.take 28) 16 ⟨none, none⟩
    ((main quietEnv ["all"] 0).trace.drop 29) (by decide)
    (.CreateCloudStorage bucket) (by decide)
  simp [Call.isProvisioning] at this

/-- C1, amended: in every run of `main`, either no create or remove operation of
the provider and no `mgr.Start` is invoked, or the six create and remove
operations are invoked once each, in the order `CreateCloudStorage`,
`RemoveCloudStorage`, `CreateCloudCache`, `RemoveCloudCache`, `CreateCloudDB`,
`RemoveCloudDB`, and `mgr.Start` is called once, after them. -/
theorem provisioning_precedes_start {σ C : Type} (env : Env σ C) (products : List String)
    (s : σ) :
    (calls (main env products s).trace).filter (fun c => c.isProvisioning || c.isStart) = [] ∨
    (calls (main env products s).trace).filter (fun c => c.isProvisioning || c.isStart) =
      [.CreateCloudStorage bucket, .RemoveCloudStorage bucket,
       .CreateCloudCache cloudCache, .RemoveCloudCache cloudCache,
       .CreateCloudDB cloudDB, .RemoveCloudDB cloudDB, .Start] := by
  rcases main_run env products s with ⟨W, e1, ho, ht⟩ | ⟨W, e1, ho, ht⟩ | ⟨W, e1, ho, ht⟩ |
    ⟨W, ns, e1, ho, ht⟩ | ⟨W, ns, e1, ho, ht⟩ | ⟨W, ns, e1, ho, ht⟩ |
    ⟨W, ns, em, e1, ho, ht⟩ | ⟨W, ns, em, p, R, es, ho, ht, -⟩
  all_goals rw [ht]
  iterate 7
    · left
      simp [upToGet, upToAddToManager, upToAddToScheme, upToNew, upToBecome, upToGetConfig,
        upToGetWatchNamespace, versionTrace, calls_append, calls_cons, calls_nil,
        calls_whenSome, filter_whenSome, whenSome_nil, Call.isProvisioning, Call.isStart]
  · right
    simp [upToGet, upToAddToManager, upToAddToScheme, upToNew, upToBecome, upToGetConfig,
      upToGetWatchNamespace, versionTrace, provisionTrace, startTrace, calls_append,
      calls_cons, calls_nil, calls_whenSome, filter_whenSome, whenSome_nil,
      Call.isProvisioning, Call.isStart]

/-- C2: if `providerFactory.Get` returns a non-nil error, the vendor key it was
given is `"aws"`, `main` panics with the message `"unable to get cloud provider "`
followed by the error text, and the run contains no provider operation and no
call of `mgr.Start`. -/
theorem factory_failure_is_fatal {σ C : Type} (env : Env σ C) (products : List String) (s : σ)
    (key : String) (w : σ) (rp : Reply C) (e : GoError)
    (hcall : Event.call (.Get key) w rp ∈ (main env products s).trace)
    (herr : rp.err = some e) :
    key = "aws" ∧
    (main env products s).outcome =
      .error (.panic ("unable to get cloud provider " ++ e.text)) ∧
    (calls (main env products s).trace).filter (fun c => c.isProviderOp || c.isStart) = [] := by
  rcases main_run env products s with ⟨W, e1, ho, ht⟩ | ⟨W, e1, ho, ht⟩ | ⟨W, e1, ho, ht⟩ |
    ⟨W, ns, e1, ho, ht⟩ | ⟨W, ns, e1, ho, ht⟩ | ⟨W, ns, e1, ho, ht⟩ |
    ⟨W, ns, em, e1, ho, ht⟩ | ⟨W, ns, em, p, R, es, ho, ht, -⟩
  all_goals rw [ht] at hcall
  all_goals
    simp [upToGet, upToAddToManager, upToAddToScheme, upToNew, upToBecome, upToGetConfig,
      upToGetWatchNamespace, versionTrace, provisionTrace, startTrace, mem_whenSome] at hcall
  · obtain ⟨rfl, rfl, rfl⟩ := hcall
    simp only [errOnly, Option.some.injEq] at herr
    subst herr
    refine ⟨rfl, ho, ?_⟩
    rw [ht]
    simp [upToGet, upToAddToManager, upToAddToScheme, upToNew, upToBecome, upToGetConfig,
      upToGetWatchNamespace, versionTrace, calls_append, calls_cons, calls_nil,
      calls_whenSome, filter_whenSome, whenSome_nil, Call.isProviderOp, Call.isStart]
  · obtain ⟨rfl, rfl, rfl⟩ := hcall
    simp [errOnly] at herr

/-- C2, concrete run: in `noVendorEnv` the factory returns the error
`unsupported vendor`; `main` panics with that text and never reaches a provider
operation or `mgr.Start`. -/
theorem factory_failure_is_fatal_witness :
    Event.call (.Get "aws") 7 ⟨none, some ⟨"unsupported vendor"⟩⟩ ∈
      (main noVendorEnv ["all"] 0).trace ∧
    (main noVendorEnv ["all"] 0).outcome =
      .error (.panic "unable to get cloud provider unsupported vendor") ∧
    (calls (main noVendorEnv ["all"] 0).trace).filter
      (fun c => c.isProviderOp || c.isStart) = [] :=
  ⟨by decide,
    (factory_failure_is_fatal noVendorEnv ["all"] 0 "aws" 7 ⟨none, some ⟨"unsupported vendor"⟩⟩
      ⟨"unsupported vendor"⟩ (by decide) rfl).2⟩

/-- C5: `coords.String()` is only ever called on non-nil coordinates, namely
those `CreateCloudDB` returned, and the line `"created rds instance ..."` is
printed only when `CreateCloudDB` returned non-nil coordinates; if the provider
returns nil coordinates whenever it returns an error, the line is printed if
and only if `CreateCloudDB` returned non-nil coordinates and no error. -/
theorem coordinates_rendered_only_on_success {σ C : Type} (env : Env σ C)
    (products : List String) (s : σ)
    (hnil : ∀ d w co e,
      Event.call (.CreateCloudDB d) w ⟨co, some e⟩ ∈ (main env products s).trace → co = none) :
    (∀ recv w rp, Event.call (.CoordsString recv) w rp ∈ (main env products s).trace →
      ∃ c w1 e1, recv = some c ∧
        Event.call (.CreateCloudDB cloudDB) w1 ⟨some c, e1⟩ ∈ (main env products s).trace) ∧
    (∀ x, Event.println ("created rds instance " ++ x) ∈ (main env products s).trace →
      ∃ c w1 e1,
        Event.call (.CreateCloudDB cloudDB) w1 ⟨some c, e1⟩ ∈ (main env products s).trace) ∧
    ((∃ x, Event.println ("created rds instance " ++ x) ∈ (main env products s).trace) ↔
      ∃ c w1,
        Event.call (.CreateCloudDB cloudDB) w1 ⟨some c, none⟩ ∈ (main env products s).trace) := by
  rcases main_run env products s with ⟨W, e1, ho, ht⟩ | ⟨W, e1, ho, ht⟩ | ⟨W, e1, ho, ht⟩ |
    ⟨W, ns, e1, ho, ht⟩ | ⟨W, ns, e1, ho, ht⟩ | ⟨W, ns, e1, ho, ht⟩ |
    ⟨W, ns, em, e1, ho, ht⟩ | ⟨W, ns, em, p, R, es, ho, ht, -⟩
  all_goals rw [ht] at hnil ⊢
  iterate 7
    · simp [upToGet, upToAddToManager, upToAddToScheme, upToNew, upToBecome, upToGetConfig,
        upToGetWatchNamespace, versionTrace, mem_whenSome]
  · rcases R with ⟨r1, r2, r3, r4, r5, ⟨co, er⟩, r7⟩
    have hdb : ∀ (w1 : σ) (rp1 : Reply C),
        Event.call (.CreateCloudDB cloudDB) w1 rp1 ∈
          upToGet env products ns W em none ++
            provisionTrace p W ⟨r1, r2, r3, r4, r5, (co, er), r7⟩ ++ startTrace W es ↔
        w1 = W.CreateCloudDB ∧ rp1 = ⟨co, er⟩ := by
      intro w1 rp1
      simp [upToGet, upToAddToManager, upToAddToScheme, upToNew, upToBecome, upToGetConfig,
        upToGetWatchNamespace, versionTrace, provisionTrace, startTrace, mem_whenSome,
        coordsAndErr]
    have hprint : ∀ x, Event.println ("created rds instance " ++ x) ∈
          upToGet env products ns W em none ++
            provisionTrace p W ⟨r1, r2, r3, r4, r5, (co, er), r7⟩ ++ startTrace W es ↔
        ∃ c, co = some c ∧ x = p.CoordsString c := by
      intro x
      simp [upToGet, upToAddToManager, upToAddToScheme, upToNew, upToBecome, upToGetConfig,
        upToGetWatchNamespace, versionTrace, provisionTrace, startTrace, mem_whenSome,
        created_ne_creating, created_ne_removing, created_inj]
    refine ⟨?_, ?_, ?_⟩
    · intro recv w rp hmem
      simp [upToGet, upToAddToManager, upToAddToScheme, upToNew, upToBecome, upToGetConfig,
        upToGetWatchNamespace, versionTrace, provisionTrace, startTrace, mem_whenSome]
        at hmem
      obtain ⟨c, hc, rfl, -, -⟩ := hmem
      exact ⟨c, W.CreateCloudDB, er, rfl, (hdb _ _).2 ⟨rfl, by rw [hc]⟩⟩
    · intro x hx
      obtain ⟨c, hc, -⟩ := (hprint x).1 hx
      exact ⟨c, W.CreateCloudDB, er, (hdb _ _).2 ⟨rfl, by rw [hc]⟩⟩
    · constructor
      · rintro ⟨x, hx⟩
        obtain ⟨c, hc, -⟩ := (hprint x).1 hx
        subst hc
        cases er with
        | none => exact ⟨c, W.CreateCloudDB, (hdb _ _).2 ⟨rfl, rfl⟩⟩
        | some e =>
          have := hnil cloudDB W.CreateCloudDB (some c) e ((hdb _ _).2 ⟨rfl, rfl⟩)
          simp at this
      · rintro ⟨c, w1, hmem⟩
        obtain ⟨-, hrp⟩ := (hdb _ _).1 hmem
        simp only [Reply.mk.injEq] at hrp
        exact ⟨p.CoordsString c, (hprint _).2 ⟨c, hrp.1.symm, rfl⟩⟩

/-- C5, concrete runs: in `quietEnv` the call `CreateCloudDB` returns the
coordinates `"mydb"` and no error, and the line is printed; in `stormyEnv` it
returns an error and no coordinates, and the line is not printed. -/
theorem coordinates_rendered_only_on_success_witness :
    ((∀ d w co e, Event.call (.CreateCloudDB d) w ⟨co, some e⟩ ∈
        (main quietEnv ["all"] 0).trace → co = none) ∧
      ∃ x, Event.println ("created rds instance " ++ x) ∈ (main quietEnv ["all"] 0).trace) ∧
    ((∀ d w co e, Event.call (.CreateCloudDB d) w ⟨co, some e⟩ ∈
        (main stormyEnv ["all"] 0).trace → co = none) ∧
      ¬ ∃ x, Event.println ("created rds instance " ++ x) ∈ (main stormyEnv ["all"] 0).trace) :=
  have quiet : ∀ d w co e, Event.call (.CreateCloudDB d) w ⟨co, some e⟩ ∈
      (main quietEnv ["all"] 0).trace → co = none := by
    intro d w co e hmem
    have := of_allCalls (fun _ _ rp => rp.err.isNone) _ (by decide) _ _ _ hmem
    simp at this
  have stormy : ∀ d w co e, Event.call (.CreateCloudDB d) w ⟨co, some e⟩ ∈
      (main stormyEnv ["all"] 0).trace → co = none := by
    intro d w co e hmem
    have := of_allCalls (fun _ _ rp => rp.coords.isNone) _ (by decide) _ _ _ hmem
    simpa using this
  ⟨⟨quiet,
      (coordinates_rendered_only_on_success quietEnv ["all"] 0 quiet).2.2.2
        ⟨"mydb", 13, by decide⟩⟩,
    ⟨stormy, fun hx => by
      obtain ⟨c, w1, hmem⟩ :=
        (coordinates_rendered_only_on_success stormyEnv ["all"] 0 stormy).2.2.1 hx
      have := of_allCalls (fun _ _ rp => rp.coords.isNone) _ (by decide) _ _ _ hmem
      simp at this⟩⟩

/-- C7, as stated, fails: in `quietEnv` the call `CreateCloudCache` is made and
it is passed no context. -/
theorem blocking_operations_take_context_counterexample :
    ¬ (∀ c ∈ calls (main quietEnv ["all"] 0).trace,
        c.isBlockingOp = true → c.context ≠ none) := by
  intro h
  exact h (.CreateCloudCache cloudCache) (by decide) rfl rfl

/-- C7, amended: each call of `CreateCloudCache`, `RemoveCloudCache`,
`CreateCloudDB`, `RemoveCloudDB` that `main` makes is passed its descriptor
(`cloudCache`, respectively `cloudDB`) and no context; the only calls that are
passed a context are `leader.Become` and `metrics.ExposeMetricsPort`, and the
context is `context.TODO()`. -/
theorem blocking_operations_take_only_descriptor {σ C : Type} (env : Env σ C)
    (products : List String) (s : σ) (c : Call C)
    (hc : c ∈ calls (main env products s).trace) :
    (c.isBlockingOp = true →
      c.context = none ∧
      (c.descriptor = some (.inl cloudCache) ∨ c.descriptor = some (.inr cloudDB))) ∧
    (∀ ctx, c.context = some ctx →
      ctx = Context.todo ∧
      (c = .Become .todo "integreatly-operator-lock" ∨ c = .ExposeMetricsPort .todo 8383)) := by
  obtain ⟨w, rp, hcall⟩ := (mem_calls c _).1 hc
  have key : c.hasArgsOfMain = true := by
    refine of_allCalls (fun c _ _ => c.hasArgsOfMain) _ ?_ c w rp hcall
    rcases main_run env products s with ⟨W, e1, ho, ht⟩ | ⟨W, e1, ho, ht⟩ | ⟨W, e1, ho, ht⟩ |
      ⟨W, ns, e1, ho, ht⟩ | ⟨W, ns, e1, ho, ht⟩ | ⟨W, ns, e1, ho, ht⟩ |
      ⟨W, ns, em, e1, ho, ht⟩ | ⟨W, ns, em, p, R, es, ho, ht, -⟩
    all_goals rw [ht]
    all_goals
      simp [upToGet, upToAddToManager, upToAddToScheme, upToNew, upToBecome, upToGetConfig,
        upToGetWatchNamespace, versionTrace, provisionTrace, startTrace, allCalls_append,
        allCalls_cons, allCalls_nil, allCalls_whenSome, option_all_true, Call.hasArgsOfMain,
        metricsPort]
  cases c <;>
    simp_all [Call.hasArgsOfMain, Call.isBlockingOp, Call.context, Call.descriptor]

/-- C7 amended, concrete run: in `quietEnv` the call `CreateCloudCache(cloudCache)`
is made; it has no context argument. -/
theorem blocking_operations_take_only_descriptor_witness :
    Call.CreateCloudCache cloudCache ∈ calls (main quietEnv ["all"] 0).trace ∧
    (Call.CreateCloudCache cloudCache : Call String).context = none :=
  ⟨by decide,
    ((blocking_operations_take_only_descriptor quietEnv ["all"] 0
      (.CreateCloudCache cloudCache) (by decide)).1 rfl).1⟩

/-- C8: in the backend of spec §4, removing a cache cluster, a database or a
bucket that the vendor has no record of returns no error and leaves the vendor
state as it is; and when `main` runs against that backend, its call
`RemoveCloudCache` is made with the descriptor `cloudCache` of its call
`CreateCloudCache`, whatever that call returned, and returns no error when the
vendor has no cluster of that name at the time of the call. -/
theorem delete_is_idempotent (cfg : BackendConfig) (env : Env Vendor Coordinates)
    (products : List String) (s : Vendor)
    (hget : ∀ v, (env.Get "aws" v).1 = .ok (backend cfg)) :
    (∀ d v, v.hasCache d.ClusterName = false →
      (backend cfg).RemoveCloudCache d v = (none, v)) ∧
    (∀ d v, v.hasDatabase d.ClusterName = false →
      (backend cfg).RemoveCloudDB d v = (none, v)) ∧
    (∀ name v, v.hasBucket name = false →
      (backend cfg).RemoveCloudStorage name v = (none, v)) ∧
    (∀ d w rp, Event.call (.RemoveCloudCache d) w rp ∈ (main env products s).trace →
      d = cloudCache ∧
      (∃ w1 rp1, Event.call (.CreateCloudCache d) w1 rp1 ∈ (main env products s).trace) ∧
      (w.hasCache d.ClusterName = false → rp.err = none)) := by
  refine ⟨fun d v h => removeCache_absent cfg d v h, fun d v h => removeDatabase_absent cfg d v h,
    fun name v h => removeStorage_absent cfg name v h, ?_⟩
  rcases main_run env products s with ⟨W, e1, ho, ht⟩ | ⟨W, e1, ho, ht⟩ | ⟨W, e1, ho, ht⟩ |
    ⟨W, ns, e1, ho, ht⟩ | ⟨W, ns, e1, ho, ht⟩ | ⟨W, ns, e1, ho, ht⟩ |
    ⟨W, ns, em, e1, ho, ht⟩ | ⟨W, ns, em, p, R, es, ho, ht, hl⟩
  all_goals rw [ht]
  iterate 7
    · simp [upToGet, upToAddToManager, upToAddToScheme, upToNew, upToBecome, upToGetConfig,
        upToGetWatchNamespace, versionTrace, mem_whenSome]
  obtain ⟨hg, -, -, -, -, hremove, -⟩ := hl
  have hp : p = backend cfg := by
    have := hget W.Get
    rw [hg] at this
    exact Except.ok.inj this
  subst hp
  simp only [backend] at hremove
  intro d w rp hmem
  simp [upToGet, upToAddToManager, upToAddToScheme, upToNew, upToBecome, upToGetConfig,
    upToGetWatchNamespace, versionTrace, provisionTrace, startTrace, mem_whenSome] at hmem
  obtain ⟨rfl, rfl, rfl⟩ := hmem
  refine ⟨rfl, ⟨W.CreateCloudCache, coordsAndErr R.CreateCloudCache, ?_⟩, fun habsent => ?_⟩
  · simp [upToGet, provisionTrace]
  · rw [removeCache_absent cfg _ _ habsent] at hremove
    simp only [Prod.mk.injEq] at hremove
    simp [errOnly, ← hremove.1]

/-- C8, concrete run: `main` against the backend `devConfig` on the account
`emptyAccount`. The vendor rejects the create of the cache cluster, so
`CreateCloudCache` returns a `FatalError` and the vendor has no record of a
cluster; the call `RemoveCloudCache` is made all the same, with the same
descriptor, and returns no error. -/
theorem delete_is_idempotent_witness :
    (∀ v, ((awsEnv devConfig).Get "aws" v).1 = .ok (backend devConfig)) ∧
    Event.call (.CreateCloudCache cloudCache)
        { emptyAccount with answers := [.rejected "quota exceeded", .terminalSuccess,
            .terminalSuccess] }
        ⟨none, some ⟨"FatalError: quota exceeded"⟩⟩ ∈
      (main (awsEnv devConfig) ["all"] emptyAccount).trace ∧
    Event.call (.RemoveCloudCache cloudCache) accountAfterRejection ⟨none, none⟩ ∈
      (main (awsEnv devConfig) ["all"] emptyAccount).trace ∧
    accountAfterRejection.hasCache cloudCache.ClusterName = false ∧
    (cloudCache = cloudCache ∧
      (∃ w1 rp1, Event.call (.CreateCloudCache cloudCache) w1 rp1 ∈
        (main (awsEnv devConfig) ["all"] emptyAccount).trace) ∧
      (accountAfterRejection.hasCache cloudCache.ClusterName = false →
        (⟨none, none⟩ : Reply Coordinates).err = none)) :=
  ⟨fun _ => rfl, by decide, by decide, by decide,
    (delete_is_idempotent devConfig (awsEnv devConfig) ["all"] emptyAccount
      (fun _ => rfl)).2.2.2 cloudCache accountAfterRejection ⟨none, none⟩ (by decide)⟩

end IntegreatlyOperator
